import Mathlib

/-!
# Verification of the StormGlass forecast client (`src/clients/stormGlass.ts`)

Shallow embedding of the caching forecast client of `best-surf-api`.

Modelling conventions:
* JavaScript numeric measurement values are modelled as `Int`; JS truthiness
  of a number is "defined and non-zero" (`Option Int` with `some v`, `v ≠ 0`).
* A JS object mapping source names to numbers (`StormGlassPointSource`) is an
  association list `List (String × Int)`; indexing `obj[key]` is `List.lookup`,
  which returns `none` when the key is absent (JS `undefined`).
* A record field that may be absent at runtime but is only ever inspected for
  truthiness (`point.time`, the seven measurement mappings behind `?.`) is
  modelled as present-but-possibly-empty: absent `time` and `""` are both
  falsy, an absent mapping and a mapping without the source key both index
  to `undefined`; the client cannot distinguish the collapsed cases.
* The external collaborators (cache store, HTTP transport, configuration) are
  passed in as an explicit environment, and the observable effects of one
  `fetchPoints` call (was the upstream port invoked, what cache write was
  issued) are returned in an explicit log.
* Coordinates are modelled as `Int`; JS template interpolation of a number is
  modelled as decimal `toString`.
-/

namespace BestSurf

/-- `ForecastPoint` (stormGlass.ts lines 27–36): one normalized observation. -/
structure ForecastPoint where
  time : String
  swellDirection : Int
  swellHeight : Int
  swellPeriod : Int
  waveDirection : Int
  waveHeight : Int
  windDirection : Int
  windSpeed : Int
  deriving DecidableEq, Repr

/-- `StormGlassPointSource` (lines 8–10): source-name-indexed numeric values. -/
abbrev StormGlassPointSource := List (String × Int)

/-- `StormGlassPoint` (lines 12–21): one raw hourly record of the upstream payload. -/
structure StormGlassPoint where
  time : String
  swellDirection : StormGlassPointSource
  swellHeight : StormGlassPointSource
  swellPeriod : StormGlassPointSource
  waveDirection : StormGlassPointSource
  waveHeight : StormGlassPointSource
  windDirection : StormGlassPointSource
  windSpeed : StormGlassPointSource
  deriving DecidableEq, Repr

/-- `StormGlassForecastResponse` (lines 23–25): the declared shape of a success body. -/
structure StormGlassForecastResponse where
  hours : List StormGlassPoint
  deriving DecidableEq, Repr

/-- The runtime shape of a success body: the `hours` array may be missing
(the TypeScript type promises it, the wire does not). -/
structure RawResponseBody where
  hours : Option (List StormGlassPoint)
  deriving DecidableEq, Repr

/-- `readonly stormGlassAPISource = 'noaa'` (line 65). -/
def stormGlassAPISource : String := "noaa"

/-- `readonly stormGlassAPIParams` (lines 63–64). -/
def stormGlassAPIParams : String :=
  "swellDirection,swellHeight,swellPeriod,waveDirection,waveHeight,windDirection,windSpeed"

/-- JS truthiness of a possibly-undefined number: defined and non-zero. -/
def truthyNum (v : Option Int) : Bool :=
  match v with
  | none => false
  | some n => n != 0

/-- `isValidPoint` (lines 161–172): the record is kept iff `time` is truthy and
each of the seven mappings has a truthy value under the configured source. -/
def isValidPoint (point : StormGlassPoint) : Bool :=
  point.time != "" &&
  truthyNum (point.swellDirection.lookup stormGlassAPISource) &&
  truthyNum (point.swellHeight.lookup stormGlassAPISource) &&
  truthyNum (point.swellPeriod.lookup stormGlassAPISource) &&
  truthyNum (point.waveDirection.lookup stormGlassAPISource) &&
  truthyNum (point.waveHeight.lookup stormGlassAPISource) &&
  truthyNum (point.windDirection.lookup stormGlassAPISource) &&
  truthyNum (point.windSpeed.lookup stormGlassAPISource)

/-- The mapping body of `normalizeResponse` (lines 149–158): project each of the
seven mappings to its scalar at the configured source name. JS indexing is
total (absent key gives `undefined`); the `getD 0` default is reached only on
records `normalizeResponse` has already filtered out. -/
def projectPoint (point : StormGlassPoint) : ForecastPoint :=
  { time := point.time
    swellDirection := (point.swellDirection.lookup stormGlassAPISource).getD 0
    swellHeight := (point.swellHeight.lookup stormGlassAPISource).getD 0
    swellPeriod := (point.swellPeriod.lookup stormGlassAPISource).getD 0
    waveDirection := (point.waveDirection.lookup stormGlassAPISource).getD 0
    waveHeight := (point.waveHeight.lookup stormGlassAPISource).getD 0
    windDirection := (point.windDirection.lookup stormGlassAPISource).getD 0
    windSpeed := (point.windSpeed.lookup stormGlassAPISource).getD 0 }

/-- `normalizeResponse` (lines 146–159): filter by validity, then project. -/
def normalizeResponse (points : StormGlassForecastResponse) : List ForecastPoint :=
  (points.hours.filter isValidPoint).map projectPoint

/-- `normalizeResponse` as executed on a runtime body: accessing `.filter` on a
missing `hours` array raises a `TypeError` inside the `try` block. -/
def normalizeRuntimeResponse (body : RawResponseBody) :
    Except String (List ForecastPoint) :=
  match body.hours with
  | none => .error "Cannot read properties of undefined (reading filter)"
  | some hs => .ok (normalizeResponse { hours := hs })

/-- The three error classes of stormGlass.ts (lines 38–56), tagged with the
final message each constructor builds. -/
inductive ClientError where
  | clientRequestError (message : String)
  | stormGlassResponseError (message : String)
  | stormGlassUnexpectedResponseError (message : String)
  deriving DecidableEq, Repr

/-- `ClientRequestError` message construction (lines 44–49). -/
def clientRequestErrorMessage (message : String) : String :=
  "Unexpected error when trying to communicate to StormGlass: " ++ message

/-- `StormGlassResponseError` message construction (lines 51–56). -/
def stormGlassResponseErrorMessage (message : String) : String :=
  "Unexpected error returned by the StormGlass Service: " ++ message

/-- A structured upstream HTTP error as seen through the transport layer:
`err.response.data` serialized by `JSON.stringify`, and `err.response.status`. -/
structure HttpErrorResponse where
  data : String
  status : Nat
  deriving DecidableEq, Repr

/-- Outcome of the transport call `request.get` for one invocation:
a (possibly malformed) success body, a structured HTTP error
(`HTTPUtil.Request.isRequestError` holds), or any other transport failure
carrying only a message. -/
inductive TransportResult where
  | success (body : RawResponseBody)
  | httpError (response : HttpErrorResponse)
  | otherFailure (message : String)
  deriving DecidableEq, Repr

/-- `getForecastPointsFromApi` (lines 86–115): on success normalize (a failure
while normalizing is caught by the same `catch`); a structured HTTP error is
rethrown as `StormGlassResponseError` with serialized body and status; any
other failure is rethrown as `ClientRequestError` with the underlying message. -/
def getForecastPointsFromApi (transport : TransportResult) :
    Except ClientError (List ForecastPoint) :=
  match transport with
  | .success body =>
    match normalizeRuntimeResponse body with
    | .ok forecastPoints => .ok forecastPoints
    | .error msg => .error (.clientRequestError (clientRequestErrorMessage msg))
  | .httpError response =>
    .error (.stormGlassResponseError (stormGlassResponseErrorMessage
      ("Error: " ++ response.data ++ " Code: " ++ toString response.status)))
  | .otherFailure msg =>
    .error (.clientRequestError (clientRequestErrorMessage msg))

/-- What one read against the external cache store can do. -/
inductive CacheReadOutcome where
  | found (points : List ForecastPoint)
  | absent
  | readFailure
  deriving DecidableEq, Repr

/-- Modelled from the spec: the `CacheUtil` adapter (`src/util/cache.ts`, not
under `src/`) wraps the key-value store; per the spec a cache-read failure is
"never surfaced — downgraded to a cache miss", so `get` yields `undefined`
both when the key is absent/expired and when the read fails. -/
def cacheUtilGet (outcome : CacheReadOutcome) : Option (List ForecastPoint) :=
  match outcome with
  | .found points => some points
  | .absent => none
  | .readFailure => none

/-- `getForecastPointsFromCache` (lines 117–128): return `undefined` when the
store yields a falsy value (for type `ForecastPoint[] | undefined` only
`undefined` is falsy — an empty array is truthy), else the stored sequence. -/
def getForecastPointsFromCache (cacheRead : String → CacheReadOutcome)
    (key : String) : Option (List ForecastPoint) :=
  match cacheUtilGet (cacheRead key) with
  | none => none
  | some forecastPoints => some forecastPoints

/-- `getCacheKey` (lines 130–132): the template string
`forecast_points_${lat}_${lng}`. -/
def getCacheKey (lat lng : Int) : String :=
  "forecast_points_" ++ toString lat ++ "_" ++ toString lng

/-- External collaborators and configuration for one `fetchPoints` call. -/
structure FetchEnv where
  cacheRead : String → CacheReadOutcome
  transport : TransportResult
  setSuccess : Bool
  cacheTtl : Nat

/-- One cache write as issued against the store: key, value, TTL. -/
structure CacheWrite where
  key : String
  points : List ForecastPoint
  ttl : Nat
  deriving DecidableEq, Repr

/-- Observable effects of one `fetchPoints` call. -/
structure FetchLog where
  upstreamCalled : Bool
  cacheWrite : Option CacheWrite
  deriving DecidableEq, Repr

/-- `setForecastPointsInCache` (lines 134–144): forwards key, the sequence and
the configured TTL (`stormGlassResourceConfig.get('cacheTtl')`) to
`cacheUtil.set`, returning the boolean the store reports. -/
def setForecastPointsInCache (env : FetchEnv) (key : String)
    (forecastPoints : List ForecastPoint) : Bool × CacheWrite :=
  (env.setSuccess, { key := key, points := forecastPoints, ttl := env.cacheTtl })

/-- `fetchPoints` (lines 72–84): consult the cache under the derived key; on a
falsy result fetch upstream, write the result to the cache (return value of
the write ignored) and return it; otherwise return the cached sequence. -/
def fetchPoints (env : FetchEnv) (lat lng : Int) :
    Except ClientError (List ForecastPoint) × FetchLog :=
  match getForecastPointsFromCache env.cacheRead (getCacheKey lat lng) with
  | none =>
    match getForecastPointsFromApi env.transport with
    | .ok forecastPoints =>
      (.ok forecastPoints,
        { upstreamCalled := true
          cacheWrite := some
            (setForecastPointsInCache env (getCacheKey lat lng) forecastPoints).2 })
    | .error e => (.error e, { upstreamCalled := true, cacheWrite := none })
  | some cachedForecastPoints =>
    (.ok cachedForecastPoints, { upstreamCalled := false, cacheWrite := none })

/-! ## Sample data for concrete witnesses -/

/-- A raw hourly record that passes the validity check. -/
def sampleRawPoint : StormGlassPoint :=
  { time := "2020-04-26T00:00:00+00:00"
    swellDirection := [("noaa", 64)]
    swellHeight := [("noaa", 1)]
    swellPeriod := [("noaa", 13)]
    waveDirection := [("noaa", 231)]
    waveHeight := [("noaa", 1)]
    windDirection := [("noaa", 299)]
    windSpeed := [("noaa", 100)] }

/-- A raw hourly record rejected by the validity check: no value under the
configured source for `swellDirection`. -/
def sampleInvalidRawPoint : StormGlassPoint :=
  { time := "2020-04-26T01:00:00+00:00"
    swellDirection := []
    swellHeight := [("noaa", 1)]
    swellPeriod := [("noaa", 13)]
    waveDirection := [("noaa", 231)]
    waveHeight := [("noaa", 1)]
    windDirection := [("noaa", 299)]
    windSpeed := [("noaa", 100)] }

/-- A success body holding one valid and one invalid record. -/
def sampleBody : RawResponseBody :=
  { hours := some [sampleRawPoint, sampleInvalidRawPoint] }

/-- A cached forecast point. -/
def samplePoint : ForecastPoint := projectPoint sampleRawPoint

/-- Environment whose cache holds a non-empty sequence for the key of (10, 20)
and whose transport would fail if it were consulted. -/
def envCacheHit : FetchEnv :=
  { cacheRead := fun key =>
      if key = getCacheKey 10 20 then CacheReadOutcome.found [samplePoint]
      else CacheReadOutcome.absent
    transport := TransportResult.otherFailure "network down"
    setSuccess := true
    cacheTtl := 600 }

/-- Environment with an empty cache and a transport that succeeds with
`sampleBody`. -/
def envCacheMiss : FetchEnv :=
  { cacheRead := fun _ => CacheReadOutcome.absent
    transport := TransportResult.success sampleBody
    setSuccess := true
    cacheTtl := 600 }

/-- Environment whose cache holds a present but empty sequence for the key of
(10, 20), while the upstream would deliver a non-empty fresh sequence. -/
def envEmptyCached : FetchEnv :=
  { cacheRead := fun key =>
      if key = getCacheKey 10 20 then CacheReadOutcome.found []
      else CacheReadOutcome.absent
    transport := TransportResult.success sampleBody
    setSuccess := true
    cacheTtl := 600 }

/-- Environment whose cache read fails, with a succeeding transport. -/
def envCacheReadFail : FetchEnv :=
  { cacheRead := fun _ => CacheReadOutcome.readFailure
    transport := TransportResult.success sampleBody
    setSuccess := true
    cacheTtl := 600 }

/-! ## Cache-aside control flow -/

/-- C1: if the cache lookup for the derived key returns a present, non-empty
sequence, `fetchPoints` returns exactly that sequence, the upstream port is
not invoked, and no cache write is performed. -/
theorem fetchPoints_cache_hit_short_circuit (env : FetchEnv) (lat lng : Int)
    (pts : List ForecastPoint)
    (hget : env.cacheRead (getCacheKey lat lng) = CacheReadOutcome.found pts)
    (_hne : pts ≠ []) :
    fetchPoints env lat lng =
      (Except.ok pts, { upstreamCalled := false, cacheWrite := none }) := by
  simp [fetchPoints, getForecastPointsFromCache, cacheUtilGet, hget]

/-- Witness for C1: concrete cache hit at (10, 20). -/
theorem fetchPoints_cache_hit_short_circuit_witness :
    fetchPoints envCacheHit 10 20 =
      (Except.ok [samplePoint], { upstreamCalled := false, cacheWrite := none }) :=
  fetchPoints_cache_hit_short_circuit envCacheHit 10 20 [samplePoint]
    (by simp [envCacheHit]) (by simp)

/-- C2: on a cache miss with a successful upstream fetch, `fetchPoints` issues
a cache write with exactly the lookup key, exactly the normalized sequence it
returns, and the configured TTL taken from the environment, and returns the
fresh sequence. -/
theorem fetchPoints_cache_miss_populates (env : FetchEnv) (lat lng : Int)
    (pts : List ForecastPoint)
    (hmiss : cacheUtilGet (env.cacheRead (getCacheKey lat lng)) = none)
    (hok : getForecastPointsFromApi env.transport = Except.ok pts) :
    fetchPoints env lat lng =
      (Except.ok pts,
        { upstreamCalled := true
          cacheWrite := some
            { key := getCacheKey lat lng, points := pts, ttl := env.cacheTtl } }) := by
  simp [fetchPoints, getForecastPointsFromCache, hmiss, hok, setForecastPointsInCache]

/-- Witness for C2: concrete miss-then-populate run at (10, 20). -/
theorem fetchPoints_cache_miss_populates_witness :
    fetchPoints envCacheMiss 10 20 =
      (Except.ok [samplePoint],
        { upstreamCalled := true
          cacheWrite := some
            { key := getCacheKey 10 20, points := [samplePoint],
              ttl := envCacheMiss.cacheTtl } }) :=
  fetchPoints_cache_miss_populates envCacheMiss 10 20 [samplePoint] rfl rfl

/-- C6 counterexample: with a present but empty cached sequence for the key of
(10, 20) and an upstream that would deliver the non-empty `[samplePoint]`,
`fetchPoints` does NOT treat the empty entry as a miss: the upstream port is
not invoked, no cache write happens, and the stale empty sequence is returned
instead of the fresh one (an empty array is truthy in JavaScript). -/
theorem fetchPoints_empty_cached_counterexample :
    cacheUtilGet (envEmptyCached.cacheRead (getCacheKey 10 20)) = some []
    ∧ getForecastPointsFromApi envEmptyCached.transport = Except.ok [samplePoint]
    ∧ fetchPoints envEmptyCached 10 20 =
        (Except.ok [], { upstreamCalled := false, cacheWrite := none }) := by
  exact ⟨rfl, rfl, rfl⟩

/-- C6 (amended): any present cached sequence — empty or not — counts as a
cache hit: `fetchPoints` returns it with no upstream call and no cache write;
only an absent cache result sends the call down the upstream path. -/
theorem fetchPoints_present_cached_is_hit (env : FetchEnv) (lat lng : Int)
    (pts : List ForecastPoint)
    (hget : cacheUtilGet (env.cacheRead (getCacheKey lat lng)) = some pts) :
    fetchPoints env lat lng =
      (Except.ok pts, { upstreamCalled := false, cacheWrite := none }) := by
  simp [fetchPoints, getForecastPointsFromCache, hget]

/-- Witness for amended C6: the empty cached sequence is served as a hit. -/
theorem fetchPoints_present_cached_is_hit_witness :
    fetchPoints envEmptyCached 10 20 =
      (Except.ok [], { upstreamCalled := false, cacheWrite := none }) :=
  fetchPoints_present_cached_is_hit envEmptyCached 10 20 [] rfl

/-- C8: on a cache miss with a successful upstream fetch, a failing cache
write (the store reports `false`) does not fail the call: `fetchPoints` still
returns the fresh sequence, identical to what it returns when the write
succeeds; the write outcome never reaches the caller. -/
theorem fetchPoints_cache_write_failure_ignored (env : FetchEnv) (lat lng : Int)
    (pts : List ForecastPoint)
    (hmiss : cacheUtilGet (env.cacheRead (getCacheKey lat lng)) = none)
    (hok : getForecastPointsFromApi env.transport = Except.ok pts) :
    (setForecastPointsInCache { env with setSuccess := false }
        (getCacheKey lat lng) pts).1 = false
    ∧ (fetchPoints { env with setSuccess := false } lat lng).1 = Except.ok pts
    ∧ (fetchPoints { env with setSuccess := false } lat lng).1 =
        (fetchPoints { env with setSuccess := true } lat lng).1 := by
  refine ⟨rfl, ?_, ?_⟩ <;>
    simp [fetchPoints, getForecastPointsFromCache, hmiss, hok,
      setForecastPointsInCache]

/-- Witness for C8: concrete run with a failing cache write. -/
theorem fetchPoints_cache_write_failure_ignored_witness :
    (setForecastPointsInCache { envCacheMiss with setSuccess := false }
        (getCacheKey 10 20) [samplePoint]).1 = false
    ∧ (fetchPoints { envCacheMiss with setSuccess := false } 10 20).1 =
        Except.ok [samplePoint]
    ∧ (fetchPoints { envCacheMiss with setSuccess := false } 10 20).1 =
        (fetchPoints { envCacheMiss with setSuccess := true } 10 20).1 :=
  fetchPoints_cache_write_failure_ignored envCacheMiss 10 20 [samplePoint] rfl rfl

/-- C9: a cache-read failure behaves exactly like a cache miss: the call is
indistinguishable from one against an absent cache entry, the upstream port is
invoked, and any error the caller sees comes from the upstream path, never
from the cache read. -/
theorem fetchPoints_cache_read_failure_is_miss (env : FetchEnv) (lat lng : Int)
    (hfail : env.cacheRead (getCacheKey lat lng) = CacheReadOutcome.readFailure) :
    fetchPoints env lat lng =
      fetchPoints { env with cacheRead := fun _ => CacheReadOutcome.absent } lat lng
    ∧ (fetchPoints env lat lng).2.upstreamCalled = true
    ∧ ∀ e, (fetchPoints env lat lng).1 = Except.error e →
        getForecastPointsFromApi env.transport = Except.error e := by
  refine ⟨?_, ?_, ?_⟩ <;>
    cases hres : getForecastPointsFromApi env.transport <;>
      simp [fetchPoints, getForecastPointsFromCache, cacheUtilGet, hfail, hres,
        setForecastPointsInCache]

/-- Witness for C9: concrete run whose cache read fails. -/
theorem fetchPoints_cache_read_failure_is_miss_witness :
    fetchPoints envCacheReadFail 10 20 =
      fetchPoints
        { envCacheReadFail with cacheRead := fun _ => CacheReadOutcome.absent } 10 20
    ∧ (fetchPoints envCacheReadFail 10 20).2.upstreamCalled = true :=
  ⟨(fetchPoints_cache_read_failure_is_miss envCacheReadFail 10 20 rfl).1,
   (fetchPoints_cache_read_failure_is_miss envCacheReadFail 10 20 rfl).2.1⟩

/-! ## Validity check and normalization -/

/-- JS truthiness of a possibly-undefined number, characterized. -/
theorem truthyNum_iff (v : Option Int) :
    truthyNum v = true ↔ ∃ n, v = some n ∧ n ≠ 0 := by
  cases v <;> simp [truthyNum]

/-- A truthy possibly-undefined number is exactly its default-projected value. -/
theorem lookup_eq_of_truthy {v : Option Int} (h : truthyNum v = true) :
    v = some (v.getD 0) := by
  cases v <;> simp_all [truthyNum]

/-- Counting helper: a list splits into the entries kept and dropped by a filter. -/
theorem length_filter_add_length_filter_not {α : Type} (p : α → Bool) (l : List α) :
    (l.filter p).length + (l.filter (fun a => !p a)).length = l.length := by
  induction l with
  | nil => rfl
  | cons a t ih => by_cases h : p a <;> simp [List.filter_cons, h] <;> omega

/-- C4: `isValidPoint` accepts a record iff its `time` field is non-empty and
each of the seven measurement mappings holds a defined, non-zero value under
the configured source name; a defined zero value is rejected. -/
theorem isValidPoint_iff (point : StormGlassPoint) :
    isValidPoint point = true ↔
      point.time ≠ ""
      ∧ (∃ v, point.swellDirection.lookup stormGlassAPISource = some v ∧ v ≠ 0)
      ∧ (∃ v, point.swellHeight.lookup stormGlassAPISource = some v ∧ v ≠ 0)
      ∧ (∃ v, point.swellPeriod.lookup stormGlassAPISource = some v ∧ v ≠ 0)
      ∧ (∃ v, point.waveDirection.lookup stormGlassAPISource = some v ∧ v ≠ 0)
      ∧ (∃ v, point.waveHeight.lookup stormGlassAPISource = some v ∧ v ≠ 0)
      ∧ (∃ v, point.windDirection.lookup stormGlassAPISource = some v ∧ v ≠ 0)
      ∧ (∃ v, point.windSpeed.lookup stormGlassAPISource = some v ∧ v ≠ 0) := by
  simp [isValidPoint, Bool.and_eq_true, truthyNum_iff, bne_iff_ne, and_assoc]

/-- C3: `normalizeResponse` keeps exactly the records passing the validity
check — `N − M` of the `N` records when `M` fail — in their original order
(the kept raw records form a sublist of the input, and the output is their
pointwise projection), each output carrying the raw record's `time` unmodified
and each numeric field being the scalar value of the corresponding mapping at
the configured source name. -/
theorem normalizeResponse_spec (points : StormGlassForecastResponse) :
    (normalizeResponse points).length =
        points.hours.length - (points.hours.filter (fun p => !isValidPoint p)).length
    ∧ List.Sublist (points.hours.filter isValidPoint) points.hours
    ∧ normalizeResponse points = (points.hours.filter isValidPoint).map projectPoint
    ∧ ∀ p ∈ points.hours.filter isValidPoint,
        (projectPoint p).time = p.time
        ∧ p.swellDirection.lookup stormGlassAPISource = some (projectPoint p).swellDirection
        ∧ p.swellHeight.lookup stormGlassAPISource = some (projectPoint p).swellHeight
        ∧ p.swellPeriod.lookup stormGlassAPISource = some (projectPoint p).swellPeriod
        ∧ p.waveDirection.lookup stormGlassAPISource = some (projectPoint p).waveDirection
        ∧ p.waveHeight.lookup stormGlassAPISource = some (projectPoint p).waveHeight
        ∧ p.windDirection.lookup stormGlassAPISource = some (projectPoint p).windDirection
        ∧ p.windSpeed.lookup stormGlassAPISource = some (projectPoint p).windSpeed := by
  refine ⟨?_, List.filter_sublist _, rfl, ?_⟩
  · have h := length_filter_add_length_filter_not isValidPoint points.hours
    simp only [normalizeResponse, List.length_map]
    omega
  · intro p hp
    have hv : isValidPoint p = true := (List.mem_filter.mp hp).2
    simp only [isValidPoint, Bool.and_eq_true] at hv
    obtain ⟨⟨⟨⟨⟨⟨⟨-, h1⟩, h2⟩, h3⟩, h4⟩, h5⟩, h6⟩, h7⟩ := hv
    exact ⟨rfl, lookup_eq_of_truthy h1, lookup_eq_of_truthy h2,
      lookup_eq_of_truthy h3, lookup_eq_of_truthy h4, lookup_eq_of_truthy h5,
      lookup_eq_of_truthy h6, lookup_eq_of_truthy h7⟩

/-- The success body of `sampleBody` as a well-typed response. -/
def sampleResponse : StormGlassForecastResponse :=
  { hours := [sampleRawPoint, sampleInvalidRawPoint] }

/-- Witness for C3: on the two-record sample response, one record is dropped
and the surviving record's swell direction is the `noaa` scalar. -/
theorem normalizeResponse_spec_witness :
    (normalizeResponse sampleResponse).length =
        sampleResponse.hours.length -
          (sampleResponse.hours.filter (fun p => !isValidPoint p)).length
    ∧ sampleRawPoint.swellDirection.lookup stormGlassAPISource =
        some (projectPoint sampleRawPoint).swellDirection :=
  ⟨(normalizeResponse_spec sampleResponse).1,
   ((normalizeResponse_spec sampleResponse).2.2.2 sampleRawPoint (by decide)).2.1⟩

/-! ## Error taxonomy of the upstream fetch path -/

/-- C5: a structured upstream HTTP error is thrown as a
`StormGlassResponseError` whose message contains the serialized upstream body
and the HTTP status code; any other transport failure is thrown as a
`ClientRequestError` carrying the underlying message; and the two kinds are
distinguishable. -/
theorem getForecastPointsFromApi_error_classification
    (response : HttpErrorResponse) (msg : String) :
    getForecastPointsFromApi (TransportResult.httpError response) =
      Except.error (ClientError.stormGlassResponseError
        (stormGlassResponseErrorMessage
          ("Error: " ++ response.data ++ " Code: " ++ toString response.status)))
    ∧ (∃ s1 s2 s3,
        stormGlassResponseErrorMessage
            ("Error: " ++ response.data ++ " Code: " ++ toString response.status)
          = s1 ++ (response.data ++ (s2 ++ (toString response.status ++ s3))))
    ∧ getForecastPointsFromApi (TransportResult.otherFailure msg) =
        Except.error (ClientError.clientRequestError (clientRequestErrorMessage msg))
    ∧ (∀ m mm, ClientError.stormGlassResponseError m ≠
        ClientError.clientRequestError mm) := by
  refine ⟨rfl, ?_, rfl, by intro m mm h; cases h⟩
  refine ⟨"Unexpected error returned by the StormGlass Service: Error: ",
    " Code: ", "", ?_⟩
  have hlit : ("Unexpected error returned by the StormGlass Service: "
      ++ "Error: " : String)
      = "Unexpected error returned by the StormGlass Service: Error: " := rfl
  simp only [stormGlassResponseErrorMessage, String.append_empty,
    ← String.append_assoc, hlit]

/-- Witness for C5: a concrete 429 with a JSON body and a concrete network
failure produce the two distinct error kinds with the documented messages. -/
theorem getForecastPointsFromApi_error_classification_witness :
    getForecastPointsFromApi
        (TransportResult.httpError { data := "\"Too Many Requests\"", status := 429 }) =
      Except.error (ClientError.stormGlassResponseError
        "Unexpected error returned by the StormGlass Service: Error: \"Too Many Requests\" Code: 429")
    ∧ getForecastPointsFromApi (TransportResult.otherFailure "Network Error") =
      Except.error (ClientError.clientRequestError
        "Unexpected error when trying to communicate to StormGlass: Network Error") :=
  ⟨(getForecastPointsFromApi_error_classification
      { data := "\"Too Many Requests\"", status := 429 } "Network Error").1,
   (getForecastPointsFromApi_error_classification
      { data := "\"Too Many Requests\"", status := 429 } "Network Error").2.2.1⟩

/-- C10: every outcome of the upstream fetch path is a success, a
`ClientRequestError` or a `StormGlassResponseError` — never a
`StormGlassUnexpectedResponseError` — and a structurally malformed success
body (no `hours` array) is caught inside the `try` block and rethrown as a
`ClientRequestError`. -/
theorem getForecastPointsFromApi_error_taxonomy (transport : TransportResult) :
    (∀ m, getForecastPointsFromApi transport ≠
        Except.error (ClientError.stormGlassUnexpectedResponseError m))
    ∧ ((∃ pts, getForecastPointsFromApi transport = Except.ok pts)
        ∨ (∃ m, getForecastPointsFromApi transport =
            Except.error (ClientError.clientRequestError m))
        ∨ (∃ m, getForecastPointsFromApi transport =
            Except.error (ClientError.stormGlassResponseError m)))
    ∧ getForecastPointsFromApi (TransportResult.success { hours := none }) =
        Except.error (ClientError.clientRequestError
          (clientRequestErrorMessage
            "Cannot read properties of undefined (reading filter)")) := by
  refine ⟨?_, ?_, rfl⟩
  · intro m h
    cases transport with
    | success body =>
      cases hb : body.hours <;>
        simp [getForecastPointsFromApi, normalizeRuntimeResponse, hb] at h
    | httpError r => simp [getForecastPointsFromApi] at h
    | otherFailure s => simp [getForecastPointsFromApi] at h
  · cases transport with
    | success body =>
      cases hb : body.hours with
      | none =>
        exact Or.inr (Or.inl ⟨clientRequestErrorMessage
          "Cannot read properties of undefined (reading filter)",
          by simp [getForecastPointsFromApi, normalizeRuntimeResponse, hb]⟩)
      | some hs =>
        exact Or.inl ⟨normalizeResponse { hours := hs },
          by simp [getForecastPointsFromApi, normalizeRuntimeResponse, hb]⟩
    | httpError r => exact Or.inr (Or.inr ⟨_, rfl⟩)
    | otherFailure s => exact Or.inr (Or.inl ⟨_, rfl⟩)

/-- Witness for C10: at concrete transports, the fetch path yields no
`StormGlassUnexpectedResponseError`, and the missing-`hours` body yields a
`ClientRequestError`. -/
theorem getForecastPointsFromApi_error_taxonomy_witness :
    getForecastPointsFromApi (TransportResult.success sampleBody) ≠
      Except.error (ClientError.stormGlassUnexpectedResponseError "boom")
    ∧ getForecastPointsFromApi (TransportResult.success { hours := none }) =
        Except.error (ClientError.clientRequestError
          (clientRequestErrorMessage
            "Cannot read properties of undefined (reading filter)")) :=
  ⟨(getForecastPointsFromApi_error_taxonomy (TransportResult.success sampleBody)).1 "boom",
   (getForecastPointsFromApi_error_taxonomy (TransportResult.success sampleBody)).2.2⟩

/-! ## Cache key derivation

`getCacheKey` interpolates the two coordinates into a template string. To
settle injectivity we prove that decimal rendering of integers is injective
and underscore-free, so the two coordinates can be recovered from the key. -/

/-- Appending strings appends their character lists. -/
theorem string_toList_append (s t : String) : (s ++ t).toList = s.toList ++ t.toList := by
  cases s; cases t; rfl

/-- Strings with equal character lists are equal. -/
theorem string_eq_of_toList (s t : String) (h : s.toList = t.toList) : s = t := by
  cases s; cases t; exact congrArg String.mk (by simpa [String.toList] using h)

/-- `toString` on `Int` is `Int.repr`. -/
theorem toString_int_eq (i : Int) : toString i = Int.repr i := by
  cases i <;> rfl

/-- The digit accumulator of `Nat.toDigitsCore` prepends to its argument. -/
theorem toDigitsCore_append (fuel n : Nat) (ds : List Char) :
    Nat.toDigitsCore 10 fuel n ds = Nat.toDigitsCore 10 fuel n [] ++ ds := by
  induction fuel generalizing n ds with
  | zero => simp [Nat.toDigitsCore]
  | succ fuel ih =>
    simp only [Nat.toDigitsCore]
    by_cases h : n / 10 = 0
    · simp [h]
    · simp only [h, if_false]
      rw [ih (n / 10) (Nat.digitChar (n % 10) :: ds),
          ih (n / 10) [Nat.digitChar (n % 10)]]
      simp

/-- `Nat.toDigitsCore` ignores its fuel once the fuel exceeds the number. -/
theorem toDigitsCore_fuel (n : Nat) : ∀ fuel fuel' : Nat, n < fuel → n < fuel' →
    ∀ ds : List Char, Nat.toDigitsCore 10 fuel n ds = Nat.toDigitsCore 10 fuel' n ds := by
  induction n using Nat.strong_induction_on with
  | _ n ih =>
    intro fuel fuel' hf hf' ds
    match fuel, fuel' with
    | f + 1, g + 1 =>
      simp only [Nat.toDigitsCore]
      by_cases h : n / 10 = 0
      · simp [h]
      · simp only [h, if_false]
        exact ih (n / 10) (by omega) f g (by omega) (by omega) _

/-- Numeric value of a decimal digit character. -/
def decodeChar (c : Char) : Nat := c.toNat - 48

/-- Code point of the digit character of `d < 10`. -/
theorem digitChar_toNat (d : Nat) (h : d < 10) : (Nat.digitChar d).toNat = 48 + d := by
  interval_cases d <;> rfl

/-- The digit character of `d < 10` is a decimal digit. -/
theorem digitChar_isDigit (d : Nat) (h : d < 10) : (Nat.digitChar d).isDigit = true := by
  interval_cases d <;> decide

/-- Folding the decimal digits of `n` over an accumulator recovers `n`. -/
theorem toDigits_foldl (n : Nat) : ∀ a : Nat,
    (Nat.toDigitsCore 10 (n + 1) n []).foldl (fun acc c => 10 * acc + decodeChar c) a
      = a * 10 ^ (Nat.toDigitsCore 10 (n + 1) n []).length + n := by
  induction n using Nat.strong_induction_on with
  | _ n ih =>
    intro a
    by_cases h : n / 10 = 0
    · have hn : n < 10 := by omega
      simp only [Nat.toDigitsCore, h, if_true]
      have hm : n % 10 = n := Nat.mod_eq_of_lt hn
      simp [List.foldl, decodeChar, hm, digitChar_toNat n hn]
      ring
    · have hstep : Nat.toDigitsCore 10 (n + 1) n []
          = Nat.toDigitsCore 10 (n / 10 + 1) (n / 10) [] ++ [Nat.digitChar (n % 10)] := by
        simp only [Nat.toDigitsCore, h, if_false]
        rw [toDigitsCore_append,
            toDigitsCore_fuel (n / 10) n (n / 10 + 1) (by omega) (by omega)]
        simp only [Nat.toDigitsCore]
      rw [hstep, List.foldl_append, List.length_append]
      rw [ih (n / 10) (by omega) a]
      have hd : decodeChar (Nat.digitChar (n % 10)) = n % 10 := by
        have := digitChar_toNat (n % 10) (by omega)
        simp [decodeChar, this]
      simp only [List.foldl, List.length_cons, List.length_nil, hd]
      have hdm := Nat.div_add_mod n 10
      set L := (Nat.toDigitsCore 10 (n / 10 + 1) (n / 10) []).length with hL
      calc 10 * (a * 10 ^ L + n / 10) + n % 10
          = a * 10 ^ L * 10 + (10 * (n / 10) + n % 10) := by ring
        _ = a * 10 ^ (L + 1) + n := by rw [hdm, pow_succ]; ring

/-- Decimal decoding of a digit string. -/
def decodeDigits (l : List Char) : Nat :=
  l.foldl (fun acc c => 10 * acc + decodeChar c) 0

/-- Decoding inverts `Nat.toDigits`. -/
theorem decodeDigits_toDigits (n : Nat) : decodeDigits (Nat.toDigits 10 n) = n := by
  unfold decodeDigits Nat.toDigits
  rw [toDigits_foldl n 0]
  simp

/-- Decimal rendering of naturals is injective. -/
theorem nat_repr_injective {m n : Nat} (h : Nat.repr m = Nat.repr n) : m = n := by
  have hl : Nat.toDigits 10 m = Nat.toDigits 10 n := by
    have h2 := congrArg String.toList h
    simpa [Nat.repr, List.asString, String.toList] using h2
  calc m = decodeDigits (Nat.toDigits 10 m) := (decodeDigits_toDigits m).symm
    _ = decodeDigits (Nat.toDigits 10 n) := by rw [hl]
    _ = n := decodeDigits_toDigits n

/-- Every character produced by `Nat.toDigitsCore` is a digit or came from
the accumulator. -/
theorem toDigitsCore_mem (fuel : Nat) : ∀ (n : Nat) (ds : List Char) (c : Char),
    c ∈ Nat.toDigitsCore 10 fuel n ds → c ∈ ds ∨ c.isDigit = true := by
  induction fuel with
  | zero => intro n ds c h; exact Or.inl h
  | succ fuel ih =>
    intro n ds c h
    simp only [Nat.toDigitsCore] at h
    by_cases h0 : n / 10 = 0
    · rw [if_pos h0] at h
      rcases List.mem_cons.mp h with h | h
      · subst h; exact Or.inr (digitChar_isDigit (n % 10) (by omega))
      · exact Or.inl h
    · rw [if_neg h0] at h
      rcases ih (n / 10) (Nat.digitChar (n % 10) :: ds) c h with h | h
      · rcases List.mem_cons.mp h with h | h
        · subst h; exact Or.inr (digitChar_isDigit (n % 10) (by omega))
        · exact Or.inl h
      · exact Or.inr h

/-- Every character of a rendered natural is a decimal digit. -/
theorem nat_repr_digits (n : Nat) : ∀ c ∈ (Nat.repr n).toList, c.isDigit = true := by
  intro c hc
  have hmem : c ∈ Nat.toDigits 10 n := by
    simpa [Nat.repr, List.asString, String.toList] using hc
  rcases toDigitsCore_mem (n + 1) n [] c hmem with h | h
  · cases h
  · exact h

/-- Decimal rendering of integers is injective. -/
theorem int_repr_injective {i j : Int} (h : Int.repr i = Int.repr j) : i = j := by
  have hdigit : ∀ n : Nat, '-' ∉ (Nat.repr n).toList := by
    intro n hmem
    have := nat_repr_digits n '-' hmem
    simp [Char.isDigit] at this
  cases i with
  | ofNat m =>
    cases j with
    | ofNat n =>
      exact congrArg Int.ofNat (nat_repr_injective (by simpa [Int.repr] using h))
    | negSucc n =>
      exfalso
      have h2 : Nat.repr m = "-" ++ Nat.repr (n + 1) := by simpa [Int.repr] using h
      have h3 := congrArg String.toList h2
      rw [string_toList_append] at h3
      exact hdigit m (h3 ▸ List.mem_append_left _ (by decide))
  | negSucc m =>
    cases j with
    | ofNat n =>
      exfalso
      have h2 : "-" ++ Nat.repr (m + 1) = Nat.repr n := by simpa [Int.repr] using h
      have h3 := congrArg String.toList h2.symm
      rw [string_toList_append] at h3
      exact hdigit n (h3 ▸ List.mem_append_left _ (by decide))
    | negSucc n =>
      have h2 : "-" ++ Nat.repr (m + 1) = "-" ++ Nat.repr (n + 1) := by
        simpa [Int.repr] using h
      have h3 := congrArg String.toList h2
      rw [string_toList_append, string_toList_append] at h3
      have h4 : (Nat.repr (m + 1)).toList = (Nat.repr (n + 1)).toList :=
        List.append_cancel_left h3
      have h5 : Nat.repr (m + 1) = Nat.repr (n + 1) := string_eq_of_toList _ _ h4
      have hmn : m = n := by have := nat_repr_injective h5; omega
      rw [hmn]

/-- No rendered integer contains an underscore. -/
theorem int_repr_no_underscore (i : Int) : '_' ∉ (Int.repr i).toList := by
  intro hmem
  cases i with
  | ofNat m =>
    have := nat_repr_digits m '_' (by simpa [Int.repr] using hmem)
    simp [Char.isDigit] at this
  | negSucc m =>
    have h2 : '_' ∈ ("-" ++ Nat.repr (m + 1)).toList := by simpa [Int.repr] using hmem
    rw [string_toList_append] at h2
    rcases List.mem_append.mp h2 with h | h
    · simp [String.toList] at h
    · have := nat_repr_digits (m + 1) '_' h
      simp [Char.isDigit] at this

/-- Splitting at an underscore separator is unambiguous when neither side
contains an underscore. -/
theorem append_underscore_inj : ∀ l1 l2 r1 r2 : List Char,
    '_' ∉ l1 → '_' ∉ l2 → l1 ++ '_' :: r1 = l2 ++ '_' :: r2 → l1 = l2 ∧ r1 = r2 := by
  intro l1
  induction l1 with
  | nil =>
    intro l2 r1 r2 h1 h2 h
    cases l2 with
    | nil => simpa using h
    | cons b u =>
      exfalso
      simp only [List.nil_append, List.cons_append, List.cons.injEq] at h
      exact h2 (h.1 ▸ List.mem_cons_self b u)
  | cons a t ih =>
    intro l2 r1 r2 h1 h2 h
    cases l2 with
    | nil =>
      exfalso
      simp only [List.cons_append, List.nil_append, List.cons.injEq] at h
      exact h1 (h.1 ▸ List.mem_cons_self a t)
    | cons b u =>
      simp only [List.cons_append, List.cons.injEq] at h
      have ht := ih u r1 r2 (fun hm => h1 (List.mem_cons_of_mem a hm))
        (fun hm => h2 (List.mem_cons_of_mem b hm)) h.2
      exact ⟨by rw [h.1, ht.1], ht.2⟩

/-- The coordinates are recoverable from the cache key. -/
theorem getCacheKey_inj {a b c d : Int} (h : getCacheKey a b = getCacheKey c d) :
    a = c ∧ b = d := by
  have h0 := congrArg String.toList h
  rw [getCacheKey, getCacheKey] at h0
  simp only [string_toList_append, List.append_assoc] at h0
  have hu : "_".toList = ['_'] := rfl
  rw [hu] at h0
  simp only [List.singleton_append] at h0
  have h1 := List.append_cancel_left h0
  rw [toString_int_eq, toString_int_eq, toString_int_eq, toString_int_eq] at h1
  obtain ⟨hac, hbd⟩ := append_underscore_inj _ _ _ _ (int_repr_no_underscore a)
    (int_repr_no_underscore c) h1
  exact ⟨int_repr_injective (string_eq_of_toList _ _ hac),
    int_repr_injective (string_eq_of_toList _ _ hbd)⟩

/-- C7: `getCacheKey` is a pure function of the coordinate pair — identical
across repeated calls with the same pair — and injective: distinct pairs give
distinct keys (each coordinate is rendered exactly, in full decimal, so there
is no rounding ambiguity in the key). -/
theorem getCacheKey_deterministic_injective (a b c d : Int) :
    getCacheKey a b = getCacheKey a b
    ∧ (getCacheKey a b = getCacheKey c d → a = c ∧ b = d) :=
  ⟨rfl, fun h => getCacheKey_inj h⟩

/-- Witness for C7: at a concrete pair, the key is stable and the implication
is dischargeable. -/
theorem getCacheKey_deterministic_injective_witness :
    getCacheKey 10 20 = getCacheKey 10 20 ∧ ((10 : Int) = 10 ∧ (20 : Int) = 20) :=
  ⟨(getCacheKey_deterministic_injective 10 20 10 20).1,
   (getCacheKey_deterministic_injective 10 20 10 20).2 rfl⟩

end BestSurf
